import Mathlib

/-!
Verification of the shopifysemaphore repository (gnikyt/shopifysemaphore).

Shallow embedding of the two Go source files:
  - balance.go   : Balance (point tracking, refill arithmetic)
  - semaphore.go : Semaphore (admission gate, pause/resume machinery)

Conventions of the embedding:
  - Go int32 values are modelled as Int; 32-bit wraparound is made explicit
    by wrap32 at the one arithmetic operation (the subtraction inside
    RefillDuration) where Go performs int32 arithmetic on derived values.
    All other stored values are field reads or caller-supplied int32
    literals, which are in range by typing.
  - Go time.Duration is an int64 nanosecond count, modelled as Int with
    the constants Millisecond and Second below.  The multiplication by
    Second inside RefillDuration cannot overflow int64: the int32 quotient
    has magnitude at most 2^31 and 2^31 * 10^9 < 2^63, so no wrap is
    applied there.
  - Go division on int32 truncates toward zero, which is Int.tdiv.  Go
    panics on division by zero; under the refill-rate hypotheses used in
    the theorems below the divisor is positive, so the total Int.tdiv
    (which returns 0 on a zero divisor) agrees with Go on every input the
    theorems touch.
  - Callbacks (PauseFunc, ResumeFunc) are side effects; the embedding
    records their presence as Booleans and their invocations as explicit
    events returned by the operations, so that "the callback fired with
    these arguments" is an inspectable value.
-/

namespace ShopifySemaphore

/-- Twos-complement 32-bit wraparound on mathematical integers. -/
def wrap32 (x : Int) : Int :=
  (x + 2 ^ 31) % 2 ^ 32 - 2 ^ 31

theorem wrap32_eq_self (x : Int) (h1 : -2 ^ 31 ≤ x) (h2 : x < 2 ^ 31) :
    wrap32 x = x := by
  unfold wrap32
  have h3 : 0 ≤ x + 2 ^ 31 := by omega
  have h4 : x + 2 ^ 31 < 2 ^ 32 := by omega
  rw [Int.emod_eq_of_lt h3 h4]
  omega

/-- balance.go: `var ErrPts int32 = -1`, the sentinel points value meaning
"no valid observation". -/
def ErrPts : Int := -1

/-- Go `time.Millisecond` in nanoseconds. -/
def Millisecond : Int := 1000000

/-- Go `time.Second` in nanoseconds. -/
def Second : Int := 1000000000

/-- balance.go: the Balance struct.  `Remaining` is an atomic.Int32 in Go;
its Load/Store pairs are modelled as plain field access because every
mutation in the claims below happens under the Semaphore mutex or in a
single-threaded prefix. -/
structure Balance where
  Remaining : Int
  Threshold : Int
  Limit : Int
  RefillRate : Int
  deriving Repr, DecidableEq

/-- balance.go: `func (b *Balance) Update(points int32)`.
Stores `points` into Remaining only when `points > ErrPts`. -/
def Balance.Update (b : Balance) (points : Int) : Balance :=
  if points > ErrPts then { b with Remaining := points } else b

/-- balance.go: `func NewBalance(thld, max, rr int32) *Balance`.
Builds the struct (Remaining zero-initialised, as for Go atomic.Int32)
and then calls `b.Update(max)`. -/
def NewBalance (thld : Int) (max : Int) (rr : Int) : Balance :=
  Balance.Update { Remaining := 0, Threshold := thld, Limit := max, RefillRate := rr } max

/-- balance.go: `func (b *Balance) RefillDuration() time.Duration`.
Go source: `time.Duration((b.Limit-b.Remaining.Load())/b.RefillRate) * time.Second`.
The subtraction is int32 arithmetic (wrap32); the division truncates toward
zero (Int.tdiv); the result is scaled to nanoseconds. -/
def Balance.RefillDuration (b : Balance) : Int :=
  (wrap32 (b.Limit - b.Remaining)).tdiv b.RefillRate * Second

/-- balance.go: `func (b *Balance) AtThreshold() bool`:
`b.Remaining.Load() <= b.Threshold`. -/
def Balance.AtThreshold (b : Balance) : Bool :=
  decide (b.Remaining ≤ b.Threshold)

/-- C2: for every Balance whose fields are in-range int32 values with
nonnegative remaining and limit (the invariant maintained by NewBalance
and Update) and a positive refill rate, RefillDuration returns exactly the
integer division of (limit - remaining) by refillRate, truncated toward
zero, in seconds; in particular limit=1000, refillRate=100 gives 0 s at
remaining=1000 and 10 s at remaining=0. -/
theorem claim_C2_refill_duration (b : Balance)
    (hr0 : 0 ≤ b.Remaining) (hr1 : b.Remaining < 2 ^ 31)
    (hl0 : 0 ≤ b.Limit) (hl1 : b.Limit < 2 ^ 31)
    (hrate : 0 < b.RefillRate) :
    b.RefillDuration = (b.Limit - b.Remaining).tdiv b.RefillRate * Second ∧
    (b.Remaining ≤ b.Limit →
      b.RefillDuration = (b.Limit - b.Remaining) / b.RefillRate * Second) ∧
    (NewBalance 0 1000 100).RefillDuration = 0 ∧
    ((NewBalance 0 1000 100).Update 0).RefillDuration = 10 * Second := by
  have key : b.RefillDuration = (b.Limit - b.Remaining).tdiv b.RefillRate * Second := by
    unfold Balance.RefillDuration
    rw [wrap32_eq_self (b.Limit - b.Remaining) (by omega) (by omega)]
  refine ⟨key, ?_, by decide, by decide⟩
  intro hle
  rw [key, Int.tdiv_eq_ediv (by omega) (by omega)]

/-- Witness for C2 at the concrete Balance of the spec example
(limit=1000, refillRate=100, remaining=1000). -/
theorem claim_C2_refill_duration_witness :
    (NewBalance 0 1000 100).RefillDuration =
      ((NewBalance 0 1000 100).Limit - (NewBalance 0 1000 100).Remaining).tdiv
        (NewBalance 0 1000 100).RefillRate * Second ∧
    (NewBalance 0 1000 100).RefillDuration = 0 ∧
    ((NewBalance 0 1000 100).Update 0).RefillDuration = 10 * Second := by
  have h := claim_C2_refill_duration (NewBalance 0 1000 100)
    (by decide) (by decide) (by decide) (by decide) (by decide)
  exact ⟨h.1, h.2.2⟩

/-- C6: Update with the sentinel ErrPts (-1) is a no-op; Update with any
points value strictly greater than the sentinel overwrites Remaining with
that value; Update 500 followed by Update ErrPts leaves Remaining = 500. -/
theorem claim_C6_update_sentinel (b : Balance) (p : Int) (hp : ErrPts < p) :
    b.Update ErrPts = b ∧
    b.Update p = { b with Remaining := p } ∧
    ((b.Update 500).Update ErrPts).Remaining = 500 := by
  refine ⟨?_, ?_, ?_⟩
  · simp [Balance.Update]
  · simp [Balance.Update, hp]
  · simp [Balance.Update, ErrPts]

/-- Witness for C6 at a concrete Balance and points value. -/
theorem claim_C6_update_sentinel_witness :
    (NewBalance 100 1000 100).Update ErrPts = NewBalance 100 1000 100 ∧
    (NewBalance 100 1000 100).Update 7 =
      { NewBalance 100 1000 100 with Remaining := 7 } ∧
    (((NewBalance 100 1000 100).Update 500).Update ErrPts).Remaining = 500 :=
  claim_C6_update_sentinel (NewBalance 100 1000 100) 7 (by decide)

/-- C10: every points value strictly below the sentinel (-1) is also a
no-op for Update, exactly like the sentinel itself: the guard in the code
is `points > ErrPts`, so all values at or below -1 leave Remaining
unchanged. -/
theorem claim_C10_update_below_sentinel (b : Balance) (p : Int) (hp : p < ErrPts) :
    b.Update p = b := by
  simp only [Balance.Update, ErrPts] at *
  rw [if_neg (by omega)]

/-- Witness for C10 at points = -100. -/
theorem claim_C10_update_below_sentinel_witness :
    (NewBalance 100 1000 100).Update (-100) = NewBalance 100 1000 100 :=
  claim_C10_update_below_sentinel (NewBalance 100 1000 100) (-100) (by decide)

/-- semaphore.go: `DefaultAquireBuffer = 200 * time.Millisecond`. -/
def DefaultAquireBuffer : Int := 200 * Millisecond

/-- semaphore.go: `DefaultPauseBuffer = 1 * time.Second`. -/
def DefaultPauseBuffer : Int := 1 * Second

/-- semaphore.go: the Semaphore struct.  The embedded `*Balance` is the
`balance` field; the function-valued fields PauseFunc and ResumeFunc are
modelled by presence flags (`nil` versus set), since their invocations are
returned as explicit events by Release below; `sema chan struct{}` is a
buffered channel of capacity `cap`, whose token count lives in the trace
model (GateState) while its capacity is recorded here. -/
structure Semaphore where
  balance : Balance
  hasPauseFunc : Bool
  hasResumeFunc : Bool
  PauseBuffer : Int
  AquireBuffer : Int
  pausedAt : Int
  paused : Bool
  semaCap : Int
  deriving Repr, DecidableEq

/-- semaphore.go: `WithPauseFunc(fn)` sets the PauseFunc field (modelled:
marks it non-nil). -/
def WithPauseFunc (sem : Semaphore) : Semaphore :=
  { sem with hasPauseFunc := true }

/-- semaphore.go: `WithResumeFunc(fn)` sets the ResumeFunc field (modelled:
marks it non-nil). -/
def WithResumeFunc (sem : Semaphore) : Semaphore :=
  { sem with hasResumeFunc := true }

/-- semaphore.go: `WithAquireBuffer(dur)` sets the AquireBuffer field. -/
def WithAquireBuffer (dur : Int) (sem : Semaphore) : Semaphore :=
  { sem with AquireBuffer := dur }

/-- semaphore.go: `WithPauseBuffer(dur)` sets the PauseBuffer field. -/
def WithPauseBuffer (dur : Int) (sem : Semaphore) : Semaphore :=
  { sem with PauseBuffer := dur }

/-- The struct literal inside NewSemaphore: Balance and sema set, every
other field Go-zero-initialised (nil funcs, zero durations, zero time,
false flag). -/
def semInit (cap : Int) (b : Balance) : Semaphore :=
  { balance := b, hasPauseFunc := false, hasResumeFunc := false,
    PauseBuffer := 0, AquireBuffer := 0, pausedAt := 0, paused := false,
    semaCap := cap }

/-- semaphore.go: `func NewSemaphore(cap int, b *Balance, opts ...func(*Semaphore)) *Semaphore`.
Applies the options in order, then fills in a default PauseFunc when nil,
a default ResumeFunc when nil, and DefaultAquireBuffer when AquireBuffer
is zero.  (Note: the Go function contains no analogous default branch for
PauseBuffer.) -/
def NewSemaphore (cap : Int) (b : Balance) (opts : List (Semaphore → Semaphore)) : Semaphore :=
  let s1 := List.foldl (fun s o => o s) (semInit cap b) opts
  let s2 := if s1.hasPauseFunc then s1 else WithPauseFunc s1
  let s3 := if s2.hasResumeFunc then s2 else WithResumeFunc s2
  if s3.AquireBuffer = 0 then WithAquireBuffer DefaultAquireBuffer s3 else s3

/-- Result of one Release call: the updated Semaphore, the PauseFunc
invocation it spawned (points and duration arguments), if any, and the
resume timer it armed (the duration slept before paused is cleared and
ResumeFunc runs), if any.  In the Go source a pause activation spawns
exactly one PauseFunc goroutine and one resume goroutine. -/
structure ReleaseResult where
  sem : Semaphore
  pauseEvent : Option (Int × Int)
  resumeTimer : Option Int
  deriving Repr, DecidableEq

/-- semaphore.go: `func (sem *Semaphore) Release(pts int32)`, the body that
runs under `sem.mu`.  Updates the balance, and when the balance is at
threshold and `sem.pausedAt.Add(ra).Before(now)` holds (ra being
RefillDuration + PauseBuffer, with no clamping), sets paused, stamps
pausedAt = now and emits the PauseFunc invocation and the resume timer.
`now` stands for the value of time.Now() during the call; the Go code
reads the clock twice in the guard and the assignment, modelled as one
instant.  The final `<-sem.sema` (slot release) is modelled in gateStep. -/
def Semaphore.Release (sem : Semaphore) (now : Int) (pts : Int) : ReleaseResult :=
  let semu := { sem with balance := sem.balance.Update pts }
  if semu.balance.AtThreshold then
    let ra := semu.balance.RefillDuration + semu.PauseBuffer
    if semu.pausedAt + ra < now then
      { sem := { semu with paused := true, pausedAt := now },
        pauseEvent := some (pts, ra), resumeTimer := some ra }
    else
      { sem := semu, pauseEvent := none, resumeTimer := none }
  else
    { sem := semu, pauseEvent := none, resumeTimer := none }

/-- C4 counterexample: a Semaphore constructed with no options has
PauseBuffer 0, not DefaultPauseBuffer (1 s): NewSemaphore never applies
DefaultPauseBuffer (the variable is declared in semaphore.go but unused),
while AquireBuffer does get its 200 ms default. -/
theorem claim_C4_pause_buffer_default_counterexample :
    (NewSemaphore 5 (NewBalance 900 1000 100) []).PauseBuffer = 0 ∧
    DefaultPauseBuffer = Second ∧ (0 : Int) ≠ Second ∧
    (NewSemaphore 5 (NewBalance 900 1000 100) []).AquireBuffer = DefaultAquireBuffer := by
  refine ⟨by decide, by decide, by decide, by decide⟩

/-- C4 (amended): for every NewSemaphore call whose options leave
PauseBuffer unset (zero), the constructed Semaphore has PauseBuffer 0 —
no default is applied, DefaultPauseBuffer being declared but never used —
while an unset AquireBuffer does default to DefaultAquireBuffer (200 ms). -/
theorem claim_C4_pause_buffer_default (cap : Int) (b : Balance)
    (opts : List (Semaphore → Semaphore))
    (hp : (List.foldl (fun s o => o s) (semInit cap b) opts).PauseBuffer = 0)
    (ha : (List.foldl (fun s o => o s) (semInit cap b) opts).AquireBuffer = 0) :
    (NewSemaphore cap b opts).PauseBuffer = 0 ∧
    (NewSemaphore cap b opts).AquireBuffer = DefaultAquireBuffer := by
  unfold NewSemaphore
  simp only [WithPauseFunc, WithResumeFunc, WithAquireBuffer]
  split <;> split <;> simp_all

/-- Witness for the amended C4 at a concrete constructor call with no
options. -/
theorem claim_C4_pause_buffer_default_witness :
    (NewSemaphore 5 (NewBalance 900 1000 100) []).PauseBuffer = 0 ∧
    (NewSemaphore 5 (NewBalance 900 1000 100) []).AquireBuffer = DefaultAquireBuffer :=
  claim_C4_pause_buffer_default 5 (NewBalance 900 1000 100) [] (by decide) (by decide)

/-- C5: evaluation of the constructors at misconfigured inputs.  NewBalance
with threshold 5000 outside [0, limit = 1000] and refill rate 0 returns a
fully-populated Balance — there is no validation and no error return path
in either constructor (their Go signatures return only the struct
pointers) — and NewSemaphore accepts a non-positive capacity the same
way.  A RefillDuration call on the produced Balance then divides by zero
(a run-time panic in Go).  This contradicts the claim that construction
rejects misconfiguration synchronously with a descriptive error. -/
theorem claim_C5_no_construction_validation :
    NewBalance 5000 1000 0 =
      { Remaining := 1000, Threshold := 5000, Limit := 1000, RefillRate := 0 } ∧
    (NewSemaphore 0 (NewBalance 5000 1000 0) []).semaCap = 0 ∧
    (NewSemaphore 0 (NewBalance 5000 1000 0) []).balance.RefillRate = 0 := by
  refine ⟨by decide, by decide, by decide⟩

/-- C3: evaluation of Release at an input on which a pause activates with
a strictly negative duration.  With threshold 5000 > limit 1000 (accepted
unvalidated, see C5) and an observation of 2000 points, the balance is at
threshold while remaining exceeds the limit, so RefillDuration is -10 s;
Release performs no clamping, the cooldown guard passes, and the pause
activates with duration -10 s handed to PauseFunc and to time.Sleep.
This contradicts the claim that a negative refill duration is clamped to
zero before the pause buffer handling. -/
theorem claim_C3_negative_duration_not_clamped :
    ((semInit 1 (NewBalance 5000 1000 100)).Release (1000 * Second) 2000).pauseEvent =
      some (2000, -10 * Second) ∧
    ((semInit 1 (NewBalance 5000 1000 100)).Release (1000 * Second) 2000).resumeTimer =
      some (-10 * Second) ∧
    (-10 : Int) * Second < 0 := by
  refine ⟨by decide, by decide, by decide⟩

/-- One environment observation made by one iteration of the Aquire loop:
the value the iteration reads from `sem.paused`, whether `ctx.Done()` is
ready, whether the buffered-channel send `sem.sema <- struct{}{}` would
succeed (held < cap), and the select tie-break used when both the
cancellation case and the send case are ready (Go picks uniformly at
random; the embedding takes the choice as an oracle input). -/
structure Poll where
  paused : Bool
  ctxDone : Bool
  slotFree : Bool
  pickCancel : Bool
  deriving Repr, DecidableEq

/-- A non-returning iteration of Aquire: either one pass of the inner
`for { if !sem.paused { break } }` wait loop (which performs no sleep), or
the select default case `time.Sleep(sem.AquireBuffer)`. -/
inductive AquireStep where
  | spin : AquireStep
  | throttle : Int → AquireStep
  deriving Repr, DecidableEq

/-- How an Aquire run ended: slot obtained, returned with ctx.Err(), or
still looping when the supplied observations ran out. -/
inductive AquireRes where
  | ok : AquireRes
  | cancelled : AquireRes
  | pending : AquireRes
  deriving Repr, DecidableEq

/-- Outcome of an Aquire run: the result, whether the returned `err` is
the non-nil ctx.Err(), how many tokens the call sent on sem.sema (its
contribution to the held count), and the waiting steps it performed. -/
structure AquireOut where
  res : AquireRes
  errCtx : Bool
  heldDelta : Nat
  steps : List AquireStep
  deriving Repr, DecidableEq

/-- semaphore.go: `func (sem *Semaphore) Aquire(ctx context.Context) (err error)`,
driven by a list of environment observations (one per loop iteration).
While `paused` reads true the inner loop spins to the next observation
without sleeping.  Otherwise the select runs: if both `<-ctx.Done()` and
the send are ready the oracle picks; a ready `<-ctx.Done()` alone returns
`err = ctx.Err()`; a ready send alone obtains the slot; the default case
sleeps AquireBuffer and loops. -/
def Semaphore.AquireRun (sem : Semaphore) : List Poll → AquireOut
  | [] => { res := AquireRes.pending, errCtx := false, heldDelta := 0, steps := [] }
  | o :: rest =>
    if o.paused then
      let out := sem.AquireRun rest
      { out with steps := AquireStep.spin :: out.steps }
    else if o.ctxDone && o.slotFree then
      if o.pickCancel then
        { res := AquireRes.cancelled, errCtx := true, heldDelta := 0, steps := [] }
      else
        { res := AquireRes.ok, errCtx := false, heldDelta := 1, steps := [] }
    else if o.ctxDone then
      { res := AquireRes.cancelled, errCtx := true, heldDelta := 0, steps := [] }
    else if o.slotFree then
      { res := AquireRes.ok, errCtx := false, heldDelta := 1, steps := [] }
    else
      let out := sem.AquireRun rest
      { out with steps := AquireStep.throttle sem.AquireBuffer :: out.steps }

/-- Nanoseconds slept by one waiting step. -/
def stepSleep : AquireStep → Int
  | AquireStep.spin => 0
  | AquireStep.throttle d => d

/-- Total nanoseconds slept across the waiting steps of a run. -/
def totalSleep (steps : List AquireStep) : Int :=
  (steps.map stepSleep).sum

/-- Observation: the Semaphore reads as paused while the cancellation
signal has already fired and no slot is free. -/
def pausedPoll : Poll :=
  { paused := true, ctxDone := true, slotFree := false, pickCancel := false }

/-- Observation: not paused, cancellation fired, no slot free. -/
def cancelPoll : Poll :=
  { paused := false, ctxDone := true, slotFree := false, pickCancel := false }

/-- Observation: not paused, no cancellation, no slot free (the
slot-waiting situation). -/
def slotWaitPoll : Poll :=
  { paused := false, ctxDone := false, slotFree := false, pickCancel := false }

/-- The repository test helper `newSemaphore(1)`:
NewSemaphore(1, NewBalance(900, 1000, 100)). -/
def sem900 : Semaphore :=
  NewSemaphore 1 (NewBalance 900 1000 100) []

theorem aquireRun_cancelled (sem : Semaphore) (obs : List Poll)
    (h : (sem.AquireRun obs).res = AquireRes.cancelled) :
    (sem.AquireRun obs).errCtx = true ∧ (sem.AquireRun obs).heldDelta = 0 := by
  induction obs with
  | nil => simp [Semaphore.AquireRun] at h
  | cons o rest ih =>
    simp only [Semaphore.AquireRun] at h ⊢
    by_cases hp : o.paused
    · simp only [hp, if_true] at h ⊢
      exact ih h
    · simp only [hp, if_false, Bool.false_eq_true] at h ⊢
      by_cases hb : o.ctxDone && o.slotFree
      · simp only [hb, if_true] at h ⊢
        by_cases hc : o.pickCancel <;> simp [hc] at h ⊢
      · simp only [hb, if_false, Bool.false_eq_true] at h ⊢
        by_cases hd : o.ctxDone
        · simp [hd]
        · simp only [hd, if_false, Bool.false_eq_true] at h ⊢
          by_cases hs : o.slotFree
          · simp [hs] at h
          · simp only [hs, if_false, Bool.false_eq_true] at h ⊢
            exact ih h

theorem aquireRun_paused_then_cancel (sem : Semaphore) (k : Nat) :
    (sem.AquireRun (List.replicate k pausedPoll ++ [cancelPoll])).res =
      AquireRes.cancelled ∧
    (sem.AquireRun (List.replicate k pausedPoll ++ [cancelPoll])).errCtx = true ∧
    (sem.AquireRun (List.replicate k pausedPoll ++ [cancelPoll])).heldDelta = 0 := by
  induction k with
  | zero => simp [Semaphore.AquireRun, cancelPoll]
  | succ k ih =>
    simpa [List.replicate_succ, Semaphore.AquireRun, pausedPoll] using ih

/-- C8: every Aquire execution that returns through the cancellation
branch — the executions in which the signal fires before a slot is
obtained — returns the non-nil ctx.Err() and contributes nothing to the
held count; moreover, for any number of iterations spent spinning while
the Semaphore is paused with the signal already fired, once the pause
clears the call returns the cancellation error, still without taking a
slot. -/
theorem claim_C8_cancellation (sem : Semaphore) (obs : List Poll)
    (h : (sem.AquireRun obs).res = AquireRes.cancelled) :
    ((sem.AquireRun obs).errCtx = true ∧ (sem.AquireRun obs).heldDelta = 0) ∧
    ∀ k : Nat,
      (sem.AquireRun (List.replicate k pausedPoll ++ [cancelPoll])).res =
        AquireRes.cancelled ∧
      (sem.AquireRun (List.replicate k pausedPoll ++ [cancelPoll])).errCtx = true ∧
      (sem.AquireRun (List.replicate k pausedPoll ++ [cancelPoll])).heldDelta = 0 :=
  ⟨aquireRun_cancelled sem obs h, fun k => aquireRun_paused_then_cancel sem k⟩

/-- Witness for C8 on the test-helper Semaphore, with the run that sees
the fired signal immediately and with three paused iterations first. -/
theorem claim_C8_cancellation_witness :
    ((sem900.AquireRun [cancelPoll]).errCtx = true ∧
      (sem900.AquireRun [cancelPoll]).heldDelta = 0) ∧
    ((sem900.AquireRun (List.replicate 3 pausedPoll ++ [cancelPoll])).res =
        AquireRes.cancelled ∧
      (sem900.AquireRun (List.replicate 3 pausedPoll ++ [cancelPoll])).errCtx = true ∧
      (sem900.AquireRun (List.replicate 3 pausedPoll ++ [cancelPoll])).heldDelta = 0) := by
  have h := claim_C8_cancellation sem900 [cancelPoll] (by decide)
  exact ⟨h.1, h.2 3⟩

/-- C9: evaluation of Aquire at a paused Semaphore.  Three loop
iterations that read paused = true perform three unthrottled spins and
zero nanoseconds of sleep — the inner wait-for-unpause loop contains no
Sleep call — whereas a slot-waiting iteration (not paused, slot busy)
does sleep AquireBuffer.  This contradicts the claim that every waiting
iteration is throttled by the acquireBuffer interval. -/
theorem claim_C9_paused_wait_unthrottled :
    (sem900.AquireRun [pausedPoll, pausedPoll, pausedPoll]).steps =
      [AquireStep.spin, AquireStep.spin, AquireStep.spin] ∧
    totalSleep (sem900.AquireRun [pausedPoll, pausedPoll, pausedPoll]).steps = 0 ∧
    (sem900.AquireRun [pausedPoll, pausedPoll, pausedPoll]).res = AquireRes.pending ∧
    (sem900.AquireRun [slotWaitPoll]).steps =
      [AquireStep.throttle DefaultAquireBuffer] ∧
    totalSleep (sem900.AquireRun [slotWaitPoll]).steps = 200 * Millisecond := by
  refine ⟨by decide, by decide, by decide, by decide, by decide⟩

/-- An event at the admission gate: a successful Aquire (the select sends
one token on sem.sema, which requires the buffered channel to have room,
held < cap), a cancelled Aquire (no token sent), or a completed Release
call (runs the mutex-guarded body, then receives one token, which
requires held > 0 — a Release with no outstanding token blocks and does
not complete). -/
inductive GateEvent where
  | aquireOk : GateEvent
  | aquireCancelled : GateEvent
  | release : Int → Int → GateEvent
  deriving Repr, DecidableEq

/-- Gate-level state: the Semaphore record plus the number of tokens in
the sem.sema channel (the held count). -/
structure GateState where
  sem : Semaphore
  held : Nat
  deriving Repr, DecidableEq

/-- One gate event against the channel semantics of sem.sema with
capacity cap. -/
def gateStep (cap : Nat) (s : GateState) : GateEvent → Option GateState
  | GateEvent.aquireOk =>
    if s.held < cap then some { s with held := s.held + 1 } else none
  | GateEvent.aquireCancelled => some s
  | GateEvent.release now pts =>
    if 0 < s.held then
      some { sem := (s.sem.Release now pts).sem, held := s.held - 1 }
    else none

/-- Run of a sequence of gate events; none when an event cannot complete. -/
def gateRun (cap : Nat) (s : GateState) : List GateEvent → Option GateState
  | [] => some s
  | e :: tr =>
    match gateStep cap s e with
    | some s1 => gateRun cap s1 tr
    | none => none

theorem gateStep_held_le {cap : Nat} {s s1 : GateState} {e : GateEvent}
    (hs : s.held ≤ cap) (h : gateStep cap s e = some s1) : s1.held ≤ cap := by
  cases e with
  | aquireOk =>
    simp only [gateStep] at h
    split at h
    next hlt =>
      cases h
      show s.held + 1 ≤ cap
      omega
    next => cases h
  | aquireCancelled =>
    simp only [gateStep] at h
    cases h
    exact hs
  | release now pts =>
    simp only [gateStep] at h
    split at h
    next hpos =>
      cases h
      show s.held - 1 ≤ cap
      omega
    next => cases h

theorem gateRun_held_le {cap : Nat} (tr : List GateEvent) (s s1 : GateState)
    (hs : s.held ≤ cap) (h : gateRun cap s tr = some s1) : s1.held ≤ cap := by
  induction tr generalizing s with
  | nil =>
    simp only [gateRun, Option.some.injEq] at h
    exact h ▸ hs
  | cons e tr ih =>
    simp only [gateRun] at h
    cases hst : gateStep cap s e with
    | none => rw [hst] at h; cases h
    | some s2 => rw [hst] at h; exact ih s2 (gateStep_held_le hs hst) h

/-- C1: for every capacity, every initial Semaphore and every sequence of
gate events starting from zero held slots, the held count of any state
the run reaches stays between 0 and cap inclusive (it is a Nat, hence
nonnegative, and never exceeds cap: a successful Aquire requires room in
the capacity-cap channel). -/
theorem claim_C1_capacity_bound (cap : Nat) (sem : Semaphore)
    (tr : List GateEvent) (s : GateState)
    (h : gateRun cap { sem := sem, held := 0 } tr = some s) :
    0 ≤ s.held ∧ s.held ≤ cap :=
  ⟨Nat.zero_le _, gateRun_held_le tr _ s (Nat.zero_le cap) h⟩

/-- Witness for C1: capacity 1, two acquisitions around a release. -/
theorem claim_C1_capacity_bound_witness :
    0 ≤ (GateState.mk sem900 1).held ∧ (GateState.mk sem900 1).held ≤ 1 := by
  have h := claim_C1_capacity_bound 1 sem900
    [GateEvent.aquireOk, GateEvent.release 0 1000, GateEvent.aquireOk]
    { sem := (sem900.Release 0 1000).sem, held := 1 } (by decide)
  exact ⟨Nat.zero_le _, h.2⟩

/-- Trace of a sequence of (serialized, mutex-guarded) Release calls:
final Semaphore, the PauseFunc invocations fired (one per pause
activation) and the resume timers armed (each timer, once elapsed, clears
paused and fires ResumeFunc exactly once). -/
structure ReleaseTrace where
  sem : Semaphore
  pauseEvents : List (Int × Int)
  resumeTimers : List Int
  deriving Repr, DecidableEq

/-- Run a list of (now, pts) Release calls in order, collecting the pause
invocations and armed resume timers. -/
def releasesRun (sem : Semaphore) : List (Int × Int) → ReleaseTrace
  | [] => { sem := sem, pauseEvents := [], resumeTimers := [] }
  | (now, pts) :: rest =>
    let r := sem.Release now pts
    let t := releasesRun r.sem rest
    { sem := t.sem,
      pauseEvents := r.pauseEvent.toList ++ t.pauseEvents,
      resumeTimers := r.resumeTimer.toList ++ t.resumeTimers }

theorem release_pause_only_after_cooldown (s : Semaphore) (t p : Int)
    (h : (s.Release t p).pauseEvent.isSome = true) :
    s.pausedAt + ((s.balance.Update p).RefillDuration + s.PauseBuffer) ≤ t := by
  simp only [Semaphore.Release] at h
  split at h
  · split at h
    next hg => omega
    next => simp at h
  · simp at h

theorem release_in_cooldown_no_pause (s : Semaphore) (t p : Int)
    (hcd : t < s.pausedAt + ((s.balance.Update p).RefillDuration + s.PauseBuffer)) :
    (s.Release t p).pauseEvent = none ∧ (s.Release t p).resumeTimer = none := by
  simp only [Semaphore.Release]
  split
  · rw [if_neg (by omega)]
    exact ⟨rfl, rfl⟩
  · exact ⟨rfl, rfl⟩

/-- C7: cooldown de-duplication.  If a first Release arms a pause and a
second Release observes an at-or-below-threshold balance at a time t2
still inside the cooldown window — t2 < pausedAt + refillDuration +
pauseBuffer, where pausedAt is the stamp left by the first release and
refillDuration is computed from the balance as updated by the second —
then the second Release activates no new pause and arms no new resume
timer; over the two calls exactly one PauseFunc invocation fires and
exactly one resume timer is armed (hence exactly one later ResumeFunc);
and in general a Release activates a pause only when its time is at or
past the cooldown boundary. -/
theorem claim_C7_cooldown_dedup (s0 : Semaphore) (t1 p1 t2 p2 : Int)
    (h1 : ((s0.Release t1 p1).pauseEvent).isSome = true)
    (hcd : t2 < (s0.Release t1 p1).sem.pausedAt +
      (((s0.Release t1 p1).sem.balance.Update p2).RefillDuration +
        (s0.Release t1 p1).sem.PauseBuffer)) :
    (((s0.Release t1 p1).sem.Release t2 p2).pauseEvent = none ∧
      ((s0.Release t1 p1).sem.Release t2 p2).resumeTimer = none) ∧
    ((releasesRun s0 [(t1, p1), (t2, p2)]).pauseEvents.length = 1 ∧
      (releasesRun s0 [(t1, p1), (t2, p2)]).resumeTimers.length = 1) ∧
    (∀ (s : Semaphore) (t p : Int), ((s.Release t p).pauseEvent).isSome = true →
      s.pausedAt + ((s.balance.Update p).RefillDuration + s.PauseBuffer) ≤ t) := by
  have hsecond := release_in_cooldown_no_pause ((s0.Release t1 p1).sem) t2 p2 hcd
  refine ⟨hsecond, ?_, fun s t p hp => release_pause_only_after_cooldown s t p hp⟩
  have htimer : ((s0.Release t1 p1).resumeTimer).isSome = true := by
    simp only [Semaphore.Release] at h1 ⊢
    split at h1 <;> split_ifs <;> simp_all
  obtain ⟨v1, hv1⟩ := Option.isSome_iff_exists.mp h1
  obtain ⟨w1, hw1⟩ := Option.isSome_iff_exists.mp htimer
  simp [releasesRun, hv1, hw1, hsecond.1, hsecond.2]

/-- Witness for C7: threshold 900, limit 1000, refill rate 100, pause
buffer 1 s; first release of 900 points at t = 100 s arms a 2 s pause;
a second release of 900 points at t = 101 s falls inside the cooldown
(until 102 s). -/
theorem claim_C7_cooldown_dedup_witness :
    ((((NewSemaphore 2 (NewBalance 900 1000 100) [WithPauseBuffer Second]).Release
        (100 * Second) 900).sem.Release (101 * Second) 900).pauseEvent = none ∧
      (((NewSemaphore 2 (NewBalance 900 1000 100) [WithPauseBuffer Second]).Release
        (100 * Second) 900).sem.Release (101 * Second) 900).resumeTimer = none) ∧
    ((releasesRun (NewSemaphore 2 (NewBalance 900 1000 100) [WithPauseBuffer Second])
        [(100 * Second, 900), (101 * Second, 900)]).pauseEvents.length = 1 ∧
      (releasesRun (NewSemaphore 2 (NewBalance 900 1000 100) [WithPauseBuffer Second])
        [(100 * Second, 900), (101 * Second, 900)]).resumeTimers.length = 1) := by
  have h := claim_C7_cooldown_dedup
    (NewSemaphore 2 (NewBalance 900 1000 100) [WithPauseBuffer Second])
    (100 * Second) 900 (101 * Second) 900 (by decide) (by decide)
  exact ⟨h.1, h.2.1⟩

end ShopifySemaphore
